import Mathlib

/-!
Verification of the orchestration layer in `main.py` of the traffic-signal
RL training/evaluation repository.

The file shallowly embeds the control flow of `main.py` (argument
validation, the training pipeline `train`, the concurrent evaluation
harness `evaluate` / `evaluate_fn`) together with the components it uses.
Components imported from `utils` (`Counter`, `init_test_flag`, `init_dir`,
`find_file`, `Trainer`, `Tester`) and from the model package (`MA2C.load`)
are not part of the visible source; those are modelled from the spec, as
marked in their doc comments.  Side effects (directory creation, simulator
port binding, logging, output files) are made explicit as an event trace.
-/

namespace SignalControl

/-- Observable side effects of a run, in the order they happen. -/
inductive Event where
  | dirCreated (role : String)
  | logInit
  | configCopied
  | envBound (port : Nat)
  | inLoopTest (step : Int)
  | postTest
  | modelSaved (step : Int)
  | logError (msg : String)
  | outputWritten (agent : String)
  deriving DecidableEq, Repr

/-- Errors that abort the training path. -/
inductive TrainError where
  | invalidMode
  | configError (section_name : String)
  deriving DecidableEq, Repr

/-- Modelled from the spec: `utils.Counter` (§4.1 Step Counter), the missing
`utils` module.  `{current_step, total_step, test_interval, log_interval}`;
`cur_step` is the field name read back in `main.py` (line 96). -/
structure Counter where
  cur_step : Int
  total_step : Int
  test_interval : Int
  log_interval : Int
  deriving DecidableEq, Repr

/-- `Counter(total_step, test_step, log_step)`: a fresh counter at step 0. -/
def Counter.mk0 (total test log : Int) : Counter :=
  ⟨0, total, test, log⟩

/-- Modelled from the spec: `advance()` increments `current_step` by one and
returns it; it saturates (does not wrap) once `current_step == total_step`. -/
def Counter.advance (c : Counter) : Counter :=
  if c.cur_step < c.total_step then ⟨c.cur_step + 1, c.total_step, c.test_interval, c.log_interval⟩
  else c

/-- Modelled from the spec: `should_log(step)` is true iff
`step mod log_interval == 0` (Python `%` and Lean `Int` `%` agree on
positive moduli). -/
def Counter.should_log (c : Counter) (step : Int) : Bool :=
  step % c.log_interval == 0

/-- Modelled from the spec: `should_test(step)` is true iff
`step mod test_interval == 0`. -/
def Counter.should_test (c : Counter) (step : Int) : Bool :=
  step % c.test_interval == 0

/-- Modelled from the spec: `is_done()` returns `current_step >= total_step`. -/
def Counter.is_done (c : Counter) : Bool :=
  decide (c.total_step ≤ c.cur_step)

/-- Modelled from the spec: `utils.init_test_flag` (§4.2 Test-Mode Resolver):
the four-row table; any other string fails (`none` stands for the
`InvalidModeError`). -/
def init_test_flag (mode : String) : Option (Bool × Bool) :=
  if mode = "no_test" then some (false, false)
  else if mode = "in_train_test" then some (true, false)
  else if mode = "after_train_test" then some (false, true)
  else if mode = "all_test" then some (true, true)
  else none

/-- The `choices` list of the `--test-mode` argument (`main.py` line 33). -/
def testModeChoices : List String :=
  ["no_test", "in_train_test", "after_train_test", "all_test"]

/-- `argparse` validation of `--test-mode`: a value outside `choices` is
rejected at parse time, before any of `train` runs. -/
def parseTestMode (mode : String) : Option String :=
  if mode ∈ testModeChoices then some mode else none

/-- Python `int()` applied to a number: truncation toward zero.  Config
floats are modelled as exact rationals. -/
def pyInt (q : Rat) : Int :=
  if 0 ≤ q then ⌊q⌋ else -⌊-q⌋

/-- The run configuration as `train` consumes it: presence of the three
sections it subscripts, and the three schedule values read with
`config.getfloat('TRAIN_CONFIG', ...)` (lines 74-76). -/
structure Config where
  hasENV : Bool
  hasTRAIN : Bool
  hasMODEL : Bool
  total_step : Rat
  test_interval : Rat
  log_interval : Rat
  deriving DecidableEq, Repr

/-- An environment handle: the only attribute the claims depend on is the
simulator port it is bound to. -/
structure EnvHandle where
  port : Nat
  deriving DecidableEq, Repr

/-- The default of the `port` parameter of `init_env` (line 49). -/
def init_env_default_port : Nat := 1

/-- `init_env(config, port=1, naive_policy=False)` (lines 49-55): builds a
`RealNetEnv` bound to `port`; with `naive_policy` also a rule-based
controller (modelled as `Unit`). -/
def init_env (port : Nat) (naive_policy : Bool) : EnvHandle × Option Unit :=
  if naive_policy then (⟨port⟩, some ()) else (⟨port⟩, none)

/-- The step counter `train` constructs (line 77): each schedule parameter
is read as a float and passed through `int()` (lines 74-76). -/
def trainCounter (cfg : Config) : Counter :=
  Counter.mk0 (pyInt cfg.total_step) (pyInt cfg.test_interval) (pyInt cfg.log_interval)

/-- Modelled from the spec: `Trainer.run` (§4.5 Training Driver, step 2),
the missing `utils` module.  While `not is_done()`: advance the counter and,
when `in_train_test` is set and `should_test(current_step)`, run an in-loop
test.  Returns the final counter and the test events of the loop. -/
def trainerRun (c : Counter) (in_test : Bool) : Counter × List Event :=
  if h : c.total_step ≤ c.cur_step then (c, [])
  else
    let c' := c.advance
    let ev := if in_test && c'.should_test c'.cur_step then [Event.inLoopTest c'.cur_step] else []
    let r := trainerRun c' in_test
    (r.1, ev ++ r.2)
termination_by (c.total_step - c.cur_step).toNat
decreasing_by
  simp only [Counter.advance, not_le] at *
  rw [if_pos h]
  simp only []
  omega

/-- `train(args)` (lines 58-98) as a trace-producing pipeline.  In order:
`init_dir` (directory roles `log`, `data`, `model` — modelled from the
spec, §6 filesystem layout), `init_log`, `copy_file`, `config.read`,
`init_test_flag`, `init_env(config['ENV_CONFIG'])` (default port),
the `TRAIN_CONFIG` schedule reads, the `MODEL_CONFIG` model construction,
`trainer.run()`, the optional `Tester.run_offline`, and the final
`model.save(dirs['model'], final_step)`.  A missing section raises where
the source subscripts it. -/
def train (cfg : Config) (test_mode : String) : List Event × Option TrainError :=
  let ev0 := [Event.dirCreated "log", Event.dirCreated "data", Event.dirCreated "model",
              Event.logInit, Event.configCopied]
  match init_test_flag test_mode with
  | none => (ev0, some TrainError.invalidMode)
  | some (in_test, post_test) =>
    if cfg.hasENV = false then (ev0, some (TrainError.configError "ENV_CONFIG"))
    else
      let env := (init_env init_env_default_port false).1
      let ev1 := ev0 ++ [Event.envBound env.port]
      if cfg.hasTRAIN = false then (ev1, some (TrainError.configError "TRAIN_CONFIG"))
      else
        let counter := trainCounter cfg
        if cfg.hasMODEL = false then (ev1, some (TrainError.configError "MODEL_CONFIG"))
        else
          let r := trainerRun counter in_test
          let ev2 := ev1 ++ r.2
          let ev3 := ev2 ++ (if post_test then [Event.postTest] else [])
          (ev3 ++ [Event.modelSaved r.1.cur_step], none)

/-- Outcome of the `main` dispatcher for the training subcommand. -/
inductive CliResult where
  | usageError
  | ran (events : List Event) (err : Option TrainError)
  deriving DecidableEq, Repr

/-- The command-line boundary for the training path: `argparse` rejects a
`--test-mode` outside `choices` before `train(args)` is entered. -/
def mainTrain (mode : String) (cfg : Config) : CliResult :=
  match parseTestMode mode with
  | none => CliResult.usageError
  | some m =>
    let r := train cfg m
    CliResult.ran r.1 r.2

/-- Events produced by a CLI invocation: a usage error produces none. -/
def CliResult.events : CliResult → List Event
  | CliResult.usageError => []
  | CliResult.ran ev _ => ev

/-- One per-agent evaluation task (`evaluate`, lines 143-150): built from
the agent's position `i` in the requested list before the worker thread is
started, with `port := i`. -/
structure EvalTask where
  agent : String
  agent_dir : String
  port : Nat
  policy_type : String
  deriving DecidableEq, Repr

/-- The task list `evaluate(args)` builds: `for i, agent in
enumerate(agents)`, with `agent_dir = base_dir + '/' + agent` and the
thread arguments `(agent_dir, dirs['eva_data'], i, policy_type)`. -/
def evaluate_tasks (base_dir : String) (agents : List String) (policy : String) :
    List EvalTask :=
  agents.enum.map (fun p => ⟨p.2, base_dir ++ "/" ++ p.2, p.1, policy⟩)

/-- The external state one worker observes: whether `check_dir(agent_dir)`
holds, whether `find_file(agent_dir + '/data/')` finds a config, and
whether `model.load(agent_dir + '/model/')` succeeds. -/
structure AgentWorld where
  dir_exists : Bool
  config_found : Bool
  model_loads : Bool
  deriving DecidableEq, Repr

/-- How one worker ends. -/
inductive EvalOutcome where
  | agentMissing
  | configMissing
  | modelLoadFailed
  | completed
  deriving DecidableEq, Repr

/-- `evaluate_fn(agent_dir, output_dir, port, policy_type)` (lines
101-129): check the agent directory, find the snapshotted config, bind the
environment to `port` via `init_env`, load the model, then run the
evaluator (which writes output keyed by the agent).  The error log line for
a missing directory is the source's (line 104); the log lines of
`find_file` and `model.load` are modelled from the spec (both failures are
logged, §7), those functions being outside the visible source. -/
def evaluate_fn (agent : String) (port : Nat) (w : AgentWorld) :
    EvalOutcome × List Event :=
  if w.dir_exists = false then
    (EvalOutcome.agentMissing,
     [Event.logError ("Evaluation: " ++ agent ++ " does not exist!")])
  else if w.config_found = false then
    (EvalOutcome.configMissing,
     [Event.logError ("Evaluation: config of " ++ agent ++ " not found!")])
  else
    let env := (init_env port false).1
    if w.model_loads = false then
      (EvalOutcome.modelLoadFailed,
       [Event.envBound env.port,
        Event.logError ("Evaluation: model of " ++ agent ++ " failed to load!")])
    else
      (EvalOutcome.completed,
       [Event.envBound env.port, Event.outputWritten agent])

/-- The concurrent evaluation harness (`evaluate`, lines 143-152): one
worker per task, every worker joined before returning.  Workers share no
mutable state (each owns its `AgentWorld`, keyed by agent name, and writes
only its own keyed output), so the joined result is the per-task list of
outcomes and events; a worker's early `return` is an outcome, never an
exception of the harness. -/
def evaluateRun (base_dir : String) (agents : List String) (policy : String)
    (world : String → AgentWorld) : List (String × EvalOutcome × List Event) :=
  (evaluate_tasks base_dir agents policy).map
    (fun t => (t.agent, evaluate_fn t.agent t.port (world t.agent)))

/-! ### Counter lemmas -/

theorem Counter.advance_total (c : Counter) : c.advance.total_step = c.total_step := by
  unfold Counter.advance
  split <;> rfl

theorem Counter.cur_le_advance (c : Counter) : c.cur_step ≤ c.advance.cur_step := by
  unfold Counter.advance
  split
  · show c.cur_step ≤ c.cur_step + 1
    omega
  · exact le_refl _

theorem Counter.advance_le (c : Counter) (h : c.cur_step ≤ c.total_step) :
    c.advance.cur_step ≤ c.total_step := by
  unfold Counter.advance
  split
  · show c.cur_step + 1 ≤ c.total_step
    omega
  · exact h

theorem Counter.iterate_bounded (c : Counter) (n : Nat) (h : c.cur_step ≤ c.total_step) :
    (Counter.advance^[n] c).cur_step ≤ c.total_step := by
  induction n generalizing c with
  | zero => simpa using h
  | succ n ih =>
    rw [Function.iterate_succ_apply]
    have := ih c.advance (by rw [Counter.advance_total]; exact Counter.advance_le c h)
    rwa [Counter.advance_total] at this

/-- C1: for every counter created with `total_step > 0`, over any sequence
of `advance()` calls `current_step` never exceeds `total_step` and is
non-decreasing from each call to the next (advance saturates at
`total_step` rather than wrapping). -/
theorem counter_advance_saturates (total test log : Int) (h : 0 < total) (n : Nat) :
    (Counter.advance^[n] (Counter.mk0 total test log)).cur_step ≤ total ∧
    (Counter.advance^[n] (Counter.mk0 total test log)).cur_step ≤
      (Counter.advance^[n + 1] (Counter.mk0 total test log)).cur_step := by
  constructor
  · exact Counter.iterate_bounded (Counter.mk0 total test log) n (by
      simp [Counter.mk0]
      omega)
  · rw [Function.iterate_succ_apply']
    exact Counter.cur_le_advance _

theorem counter_advance_saturates_witness :
    (Counter.advance^[5] (Counter.mk0 3 2 1)).cur_step ≤ 3 ∧
    (Counter.advance^[5] (Counter.mk0 3 2 1)).cur_step ≤
      (Counter.advance^[6] (Counter.mk0 3 2 1)).cur_step :=
  counter_advance_saturates 3 2 1 (by decide) 5

/-- C2: `init_test_flag` maps exactly the four enum values `no_test`,
`in_train_test`, `after_train_test`, `all_test` to the pairs
`(false,false)`, `(true,false)`, `(false,true)`, `(true,true)` and fails
for any other string; an invalid value is rejected by the `argparse`
`choices` at the command-line boundary, so the training pipeline produces
no event (no directory, no simulator binding). -/
theorem test_mode_resolver_spec (m : String) (cfg : Config) :
    init_test_flag "no_test" = some (false, false) ∧
    init_test_flag "in_train_test" = some (true, false) ∧
    init_test_flag "after_train_test" = some (false, true) ∧
    init_test_flag "all_test" = some (true, true) ∧
    (m ∉ testModeChoices → init_test_flag m = none) ∧
    (m ∉ testModeChoices → mainTrain m cfg = CliResult.usageError) ∧
    (m ∉ testModeChoices → (mainTrain m cfg).events = []) := by
  refine ⟨rfl, rfl, rfl, rfl, ?_, ?_, ?_⟩
  · intro hm
    simp only [testModeChoices, List.mem_cons, List.not_mem_nil, or_false, not_or] at hm
    obtain ⟨h1, h2, h3, h4⟩ := hm
    simp [init_test_flag, h1, h2, h3, h4]
  · intro hm
    simp [mainTrain, parseTestMode, hm]
  · intro hm
    simp [mainTrain, parseTestMode, hm, CliResult.events]

theorem test_mode_resolver_spec_witness :
    init_test_flag "bogus" = none ∧
    mainTrain "bogus" ⟨true, true, true, 0, 0, 0⟩ = CliResult.usageError ∧
    (mainTrain "bogus" ⟨true, true, true, 0, 0, 0⟩).events = [] :=
  ⟨(test_mode_resolver_spec "bogus" ⟨true, true, true, 0, 0, 0⟩).2.2.2.2.1 (by decide),
   (test_mode_resolver_spec "bogus" ⟨true, true, true, 0, 0, 0⟩).2.2.2.2.2.1 (by decide),
   (test_mode_resolver_spec "bogus" ⟨true, true, true, 0, 0, 0⟩).2.2.2.2.2.2 (by decide)⟩

/-- C3: `should_log(step)` is true iff `step mod log_interval == 0` and
`should_test(step)` is true iff `step mod test_interval == 0`; with
`total_step=100, test_interval=20, log_interval=10` the tested steps among
`1..100` are exactly `20,40,60,80,100` and the logged steps exactly the
multiples of 10. -/
theorem schedule_predicates_spec (c : Counter) (step : Int)
    (hl : 0 < c.log_interval) (ht : 0 < c.test_interval) :
    (c.should_log step = true ↔ step % c.log_interval = 0) ∧
    (c.should_test step = true ↔ step % c.test_interval = 0) ∧
    ((List.range 100).map (fun n => ((n : Int) + 1))).filter
        (fun s => (Counter.mk0 100 20 10).should_test s) = [20, 40, 60, 80, 100] ∧
    ((List.range 100).map (fun n => ((n : Int) + 1))).filter
        (fun s => (Counter.mk0 100 20 10).should_log s) =
      [10, 20, 30, 40, 50, 60, 70, 80, 90, 100] := by
  refine ⟨?_, ?_, by decide, by decide⟩
  · simp [Counter.should_log]
  · simp [Counter.should_test]

theorem schedule_predicates_spec_witness :
    ((Counter.mk0 100 20 10).should_log 40 = true ↔ (40 : Int) % 10 = 0) :=
  (schedule_predicates_spec (Counter.mk0 100 20 10) 40 (by decide) (by decide)).1

/-! ### Evaluation harness lemmas -/

theorem evaluate_tasks_length (base policy : String) (agents : List String) :
    (evaluate_tasks base agents policy).length = agents.length := by
  simp [evaluate_tasks]

theorem evaluate_tasks_getElem? (base policy : String) (agents : List String) (i : Nat) :
    (evaluate_tasks base agents policy)[i]? =
      agents[i]?.map (fun a => ⟨a, base ++ "/" ++ a, i, policy⟩) := by
  cases h : agents[i]? <;>
    simp [evaluate_tasks, List.getElem?_map, List.getElem?_enum, h]

theorem evaluate_tasks_ports (base policy : String) (agents : List String) :
    (evaluate_tasks base agents policy).map (fun t => t.port) = List.range agents.length := by
  have hc : ((fun t : EvalTask => t.port) ∘
      fun p : Nat × String => (⟨p.2, base ++ "/" ++ p.2, p.1, policy⟩ : EvalTask)) =
      Prod.fst := by
    funext p
    rfl
  rw [evaluate_tasks, List.map_map, hc, List.enum_map_fst]

theorem evaluateRun_length (base policy : String) (agents : List String)
    (world : String → AgentWorld) :
    (evaluateRun base agents policy world).length = agents.length := by
  simp [evaluateRun, evaluate_tasks_length]

theorem evaluateRun_getElem? (base policy : String) (agents : List String)
    (world : String → AgentWorld) (i : Nat) :
    (evaluateRun base agents policy world)[i]? =
      agents[i]?.map (fun a => (a, evaluate_fn a i (world a))) := by
  cases h : agents[i]? <;>
    simp [evaluateRun, List.getElem?_map, evaluate_tasks_getElem?, h]

/-- C4: the `i`-th agent of the requested list is assigned simulator port
`i` when its task is built (before any worker starts), the ports of the
task list are exactly `0, ..., n-1` in list order, and hence pairwise
distinct. -/
theorem evaluate_ports_ordinal (base policy : String) (agents : List String)
    (i : Nat) (hi : i < agents.length) :
    ((evaluate_tasks base agents policy)[i]?).map (fun t => t.port) = some i ∧
    (evaluate_tasks base agents policy).length = agents.length ∧
    (evaluate_tasks base agents policy).map (fun t => t.port) = List.range agents.length ∧
    ((evaluate_tasks base agents policy).map (fun t => t.port)).Nodup := by
  refine ⟨?_, evaluate_tasks_length base policy agents, evaluate_tasks_ports base policy agents,
    ?_⟩
  · rw [evaluate_tasks_getElem?, List.getElem?_eq_getElem hi]
    rfl
  · rw [evaluate_tasks_ports]
    exact List.nodup_range _

theorem evaluate_ports_ordinal_witness :
    ((evaluate_tasks "base" ["x", "y", "z"] "default")[1]?).map (fun t => t.port) = some 1 ∧
    (evaluate_tasks "base" ["x", "y", "z"] "default").length = 3 ∧
    (evaluate_tasks "base" ["x", "y", "z"] "default").map (fun t => t.port) = List.range 3 ∧
    ((evaluate_tasks "base" ["x", "y", "z"] "default").map (fun t => t.port)).Nodup :=
  evaluate_ports_ordinal "base" "default" ["x", "y", "z"] 1 (by decide)

theorem evaluateRun_frame (base policy : String) (agents : List String)
    (world world2 : String → AgentWorld) (a : String)
    (hW : ∀ b, b ≠ a → world b = world2 b) (i : Nat) (hi : agents[i]? ≠ some a) :
    (evaluateRun base agents policy world)[i]? =
      (evaluateRun base agents policy world2)[i]? := by
  rw [evaluateRun_getElem?, evaluateRun_getElem?]
  cases h : agents[i]? with
  | none => rfl
  | some b =>
    have hne : b ≠ a := fun hba => hi (hba ▸ h)
    simp [hW b hne]

theorem evaluate_fn_failed (ag : String) (p : Nat) (w : AgentWorld)
    (hne : (evaluate_fn ag p w).1 ≠ EvalOutcome.completed) :
    (∃ m, Event.logError m ∈ (evaluate_fn ag p w).2) ∧
    Event.outputWritten ag ∉ (evaluate_fn ag p w).2 := by
  cases hd : w.dir_exists
  · simp [evaluate_fn, hd]
  · cases hc : w.config_found
    · simp [evaluate_fn, hd, hc]
    · cases hm : w.model_loads
      · simp [evaluate_fn, hd, hc, hm, init_env]
      · exact absurd (by simp [evaluate_fn, hd, hc, hm]) hne

/-- C5: the harness builds one worker per requested agent and joins them
all: the result has exactly one entry per agent, in list order; changing
one agent's external state (for instance making its worker fail) leaves
every other worker's entry unchanged; and a worker that does not complete
writes no output for its agent — the failure is observed only as a logged
error.  The harness itself is a total function: a worker's failure is an
outcome in its entry, never an exception of the harness. -/
theorem evaluate_harness_completion (base policy : String) (agents : List String)
    (world world2 : String → AgentWorld) (a : String)
    (hW : ∀ b, b ≠ a → world b = world2 b) :
    (evaluateRun base agents policy world).length = agents.length ∧
    (∀ i : Nat,
      ((evaluateRun base agents policy world)[i]?).map (fun e => e.1) = agents[i]?) ∧
    (∀ i : Nat, agents[i]? ≠ some a →
      (evaluateRun base agents policy world)[i]? =
        (evaluateRun base agents policy world2)[i]?) ∧
    (∀ (ag : String) (p : Nat) (w : AgentWorld),
      (evaluate_fn ag p w).1 ≠ EvalOutcome.completed →
      (∃ m, Event.logError m ∈ (evaluate_fn ag p w).2) ∧
      Event.outputWritten ag ∉ (evaluate_fn ag p w).2) := by
  refine ⟨evaluateRun_length base policy agents world, ?_, ?_, ?_⟩
  · intro i
    rw [evaluateRun_getElem?]
    cases h : agents[i]? <;> simp
  · intro i hi
    exact evaluateRun_frame base policy agents world world2 a hW i hi
  · intro ag p w hne
    exact evaluate_fn_failed ag p w hne

theorem evaluate_harness_completion_witness :
    (evaluateRun "base" ["x", "y", "z"] "default"
      (fun s => if s = "y" then ⟨false, true, true⟩ else ⟨true, true, true⟩)).length = 3 :=
  (evaluate_harness_completion "base" "default" ["x", "y", "z"]
    (fun s => if s = "y" then ⟨false, true, true⟩ else ⟨true, true, true⟩)
    (fun s => if s = "y" then ⟨false, true, true⟩ else ⟨true, true, true⟩)
    "y" (fun _ _ => rfl)).1

/-- C6: each of the three task-scoped failures — agent source directory
missing, snapshotted config not found in the agent's data subdirectory,
trained-model load failure — makes that worker return early with exactly a
logged error (no output written, and for the first two not even an
environment bound); any world change confined to the failing agent leaves
every sibling worker's entry unchanged, and the harness still returns its
full per-agent result list (harness-level success). -/
theorem evaluate_failures_scoped (ag : String) (p : Nat) (w : AgentWorld) :
    (w.dir_exists = false →
      evaluate_fn ag p w = (EvalOutcome.agentMissing,
        [Event.logError ("Evaluation: " ++ ag ++ " does not exist!")])) ∧
    (w.dir_exists = true → w.config_found = false →
      evaluate_fn ag p w = (EvalOutcome.configMissing,
        [Event.logError ("Evaluation: config of " ++ ag ++ " not found!")])) ∧
    (w.dir_exists = true → w.config_found = true → w.model_loads = false →
      evaluate_fn ag p w = (EvalOutcome.modelLoadFailed,
        [Event.envBound p,
         Event.logError ("Evaluation: model of " ++ ag ++ " failed to load!")])) ∧
    (∀ (base policy : String) (agents : List String) (world : String → AgentWorld),
      (evaluateRun base agents policy world).length = agents.length) ∧
    (∀ (base policy : String) (agents : List String) (world world2 : String → AgentWorld),
      (∀ b, b ≠ ag → world b = world2 b) →
      ∀ i : Nat, agents[i]? ≠ some ag →
        (evaluateRun base agents policy world)[i]? =
          (evaluateRun base agents policy world2)[i]?) := by
  refine ⟨?_, ?_, ?_, ?_, ?_⟩
  · intro hd
    simp [evaluate_fn, hd]
  · intro hd hc
    simp [evaluate_fn, hd, hc]
  · intro hd hc hm
    simp [evaluate_fn, hd, hc, hm, init_env]
  · intro base policy agents world
    exact evaluateRun_length base policy agents world
  · intro base policy agents world world2 hW i hi
    exact evaluateRun_frame base policy agents world world2 ag hW i hi

/-! ### Training loop lemmas -/

theorem Counter.advance_of_lt (c : Counter) (h : c.cur_step < c.total_step) :
    c.advance = ⟨c.cur_step + 1, c.total_step, c.test_interval, c.log_interval⟩ := by
  unfold Counter.advance
  rw [if_pos h]

theorem trainerRun_done_aux (n : Nat) : ∀ (c : Counter) (b : Bool),
    (c.total_step - c.cur_step).toNat ≤ n → (trainerRun c b).1.is_done = true := by
  induction n with
  | zero =>
    intro c b hn
    rw [trainerRun, dif_pos (by omega)]
    show c.is_done = true
    simp only [Counter.is_done, decide_eq_true_eq]
    omega
  | succ n ih =>
    intro c b hn
    rw [trainerRun]
    split
    · next h =>
      show c.is_done = true
      simp only [Counter.is_done, decide_eq_true_eq]
      exact h
    · next h =>
      simp only []
      apply ih
      rw [Counter.advance_of_lt c (by omega)]
      simp only []
      omega

theorem trainerRun_done (c : Counter) (b : Bool) : (trainerRun c b).1.is_done = true :=
  trainerRun_done_aux (c.total_step - c.cur_step).toNat c b (le_refl _)

theorem trainerRun_no_events_aux (n : Nat) : ∀ c : Counter,
    (c.total_step - c.cur_step).toNat ≤ n → (trainerRun c false).2 = [] := by
  induction n with
  | zero =>
    intro c hn
    rw [trainerRun, dif_pos (by omega)]
  | succ n ih =>
    intro c hn
    rw [trainerRun]
    split
    · rfl
    · next h =>
      simp only [Bool.false_and, Bool.false_eq_true, if_neg, List.nil_append]
      · apply ih
        rw [Counter.advance_of_lt c (by omega)]
        simp only []
        omega

theorem trainerRun_no_events (c : Counter) : (trainerRun c false).2 = [] :=
  trainerRun_no_events_aux (c.total_step - c.cur_step).toNat c (le_refl _)

theorem trainerRun_events_shape_aux (n : Nat) : ∀ (c : Counter) (b : Bool),
    (c.total_step - c.cur_step).toNat ≤ n →
    ∀ e ∈ (trainerRun c b).2, ∃ s, e = Event.inLoopTest s := by
  induction n with
  | zero =>
    intro c b hn
    rw [trainerRun, dif_pos (by omega)]
    intro e he
    exact absurd he (List.not_mem_nil e)
  | succ n ih =>
    intro c b hn
    rw [trainerRun]
    split
    · intro e he
      exact absurd he (List.not_mem_nil e)
    · next h =>
      simp only []
      intro e he
      rw [List.mem_append] at he
      cases he with
      | inl hev =>
        split at hev
        · rw [List.mem_singleton] at hev
          exact ⟨_, hev⟩
        · exact absurd hev (List.not_mem_nil e)
      | inr hrest =>
        apply ih c.advance b _ e hrest
        rw [Counter.advance_of_lt c (by omega)]
        simp only []
        omega

theorem trainerRun_events_shape (c : Counter) (b : Bool) :
    ∀ e ∈ (trainerRun c b).2, ∃ s, e = Event.inLoopTest s :=
  trainerRun_events_shape_aux (c.total_step - c.cur_step).toNat c b (le_refl _)

theorem evaluate_failures_scoped_witness :
    evaluate_fn "naive" 0 ⟨false, true, true⟩ = (EvalOutcome.agentMissing,
      [Event.logError ("Evaluation: " ++ "naive" ++ " does not exist!")]) ∧
    evaluate_fn "naive" 0 ⟨true, false, true⟩ = (EvalOutcome.configMissing,
      [Event.logError ("Evaluation: config of " ++ "naive" ++ " not found!")]) ∧
    evaluate_fn "naive" 0 ⟨true, true, false⟩ = (EvalOutcome.modelLoadFailed,
      [Event.envBound 0,
       Event.logError ("Evaluation: model of " ++ "naive" ++ " failed to load!")]) :=
  ⟨(evaluate_failures_scoped "naive" 0 ⟨false, true, true⟩).1 rfl,
   (evaluate_failures_scoped "naive" 0 ⟨true, false, true⟩).2.1 rfl rfl,
   (evaluate_failures_scoped "naive" 0 ⟨true, true, false⟩).2.2.1 rfl rfl rfl⟩

/-- C8: with test mode `after_train_test` the resolved flags are
`in_train_test = false, post_test = true`; for any configuration whose
three sections are present, the training run succeeds with a trace holding
no in-loop test event at any step, and exactly one post-training test,
placed after the loop (whose final counter satisfies `is_done`) and before
the final model save. -/
theorem after_train_test_scenario (cfg : Config)
    (hE : cfg.hasENV = true) (hT : cfg.hasTRAIN = true) (hM : cfg.hasMODEL = true) :
    init_test_flag "after_train_test" = some (false, true) ∧
    (train cfg "after_train_test").2 = none ∧
    (train cfg "after_train_test").1 =
      [Event.dirCreated "log", Event.dirCreated "data", Event.dirCreated "model",
       Event.logInit, Event.configCopied, Event.envBound 1, Event.postTest,
       Event.modelSaved (trainerRun (trainCounter cfg) false).1.cur_step] ∧
    (∀ s : Int, Event.inLoopTest s ∉ (train cfg "after_train_test").1) ∧
    (trainerRun (trainCounter cfg) false).1.is_done = true := by
  have htrace : (train cfg "after_train_test").1 =
      [Event.dirCreated "log", Event.dirCreated "data", Event.dirCreated "model",
       Event.logInit, Event.configCopied, Event.envBound 1, Event.postTest,
       Event.modelSaved (trainerRun (trainCounter cfg) false).1.cur_step] := by
    simp [train, init_test_flag, hE, hT, hM, trainerRun_no_events, init_env,
      init_env_default_port]
  refine ⟨rfl, ?_, htrace, ?_, trainerRun_done (trainCounter cfg) false⟩
  · simp [train, init_test_flag, hE, hT, hM]
  · intro s
    rw [htrace]
    simp

theorem after_train_test_scenario_witness :
    init_test_flag "after_train_test" = some (false, true) ∧
    (train ⟨true, true, true, 100, 20, 10⟩ "after_train_test").2 = none ∧
    (train ⟨true, true, true, 100, 20, 10⟩ "after_train_test").1 =
      [Event.dirCreated "log", Event.dirCreated "data", Event.dirCreated "model",
       Event.logInit, Event.configCopied, Event.envBound 1, Event.postTest,
       Event.modelSaved
         (trainerRun (trainCounter ⟨true, true, true, 100, 20, 10⟩) false).1.cur_step] ∧
    (∀ s : Int,
      Event.inLoopTest s ∉ (train ⟨true, true, true, 100, 20, 10⟩ "after_train_test").1) ∧
    (trainerRun (trainCounter ⟨true, true, true, 100, 20, 10⟩) false).1.is_done = true :=
  after_train_test_scenario ⟨true, true, true, 100, 20, 10⟩ rfl rfl rfl

/-- C7 counterexample: the claim that a configuration failure aborts the
run before any resource is acquired is false — `init_dir` runs before the
config is read, so a run whose configuration is missing every section
still creates the `log`, `data` and `model` directories; and a
configuration failing only at `TRAIN_CONFIG` fails with the simulator port
already bound. -/
theorem config_error_resources_cex :
    ((train ⟨false, false, false, 0, 0, 0⟩ "no_test").2 =
        some (TrainError.configError "ENV_CONFIG") ∧
      Event.dirCreated "log" ∈ (train ⟨false, false, false, 0, 0, 0⟩ "no_test").1 ∧
      Event.dirCreated "data" ∈ (train ⟨false, false, false, 0, 0, 0⟩ "no_test").1 ∧
      Event.dirCreated "model" ∈ (train ⟨false, false, false, 0, 0, 0⟩ "no_test").1) ∧
    ((train ⟨true, false, false, 0, 0, 0⟩ "no_test").2 =
        some (TrainError.configError "TRAIN_CONFIG") ∧
      Event.envBound 1 ∈ (train ⟨true, false, false, 0, 0, 0⟩ "no_test").1) := by
  refine ⟨⟨?_, ?_, ?_, ?_⟩, ?_, ?_⟩ <;> simp [train, init_test_flag, init_env,
    init_env_default_port]

/-- C7 amended: a malformed or missing configuration section aborts the
training run, but only after the run directories are created — `init_dir`
runs before the configuration is read, so every failed run leaves the
`log`, `data` and `model` directories behind.  A missing `ENV_CONFIG`
aborts before the simulator port is bound; a section missing after the
environment is constructed (`TRAIN_CONFIG`) aborts with the port already
bound. -/
theorem config_error_aborts_amended (cfg : Config) (mode : String)
    (hm : init_test_flag mode ≠ none) :
    (cfg.hasENV = false →
      (train cfg mode).2 = some (TrainError.configError "ENV_CONFIG") ∧
      (∀ p, Event.envBound p ∉ (train cfg mode).1)) ∧
    (cfg.hasENV = true → cfg.hasTRAIN = false →
      (train cfg mode).2 = some (TrainError.configError "TRAIN_CONFIG") ∧
      Event.envBound 1 ∈ (train cfg mode).1) ∧
    ((train cfg mode).2.isSome = true →
      Event.dirCreated "log" ∈ (train cfg mode).1 ∧
      Event.dirCreated "data" ∈ (train cfg mode).1 ∧
      Event.dirCreated "model" ∈ (train cfg mode).1) := by
  cases hflag : init_test_flag mode with
  | none => exact absurd hflag hm
  | some fp =>
    obtain ⟨it, pt⟩ := fp
    cases hE : cfg.hasENV <;> cases hT : cfg.hasTRAIN <;> cases hM : cfg.hasMODEL <;>
      simp [train, hflag, hE, hT, hM, init_env, init_env_default_port]

theorem config_error_aborts_amended_witness :
    (train ⟨false, true, true, 0, 0, 0⟩ "no_test").2 =
      some (TrainError.configError "ENV_CONFIG") ∧
    (∀ p, Event.envBound p ∉ (train ⟨false, true, true, 0, 0, 0⟩ "no_test").1) :=
  (config_error_aborts_amended ⟨false, true, true, 0, 0, 0⟩ "no_test"
    (by decide)).1 rfl

/-- C9: the training path calls `init_env` without a `port` argument, so
for every valid mode and every configuration reaching environment
construction the training environment is bound to the default simulator
port 1 — the only port ever bound in a training trace — while the
evaluation workers' ordinal assignment starts at port 0 for the first
agent of the list. -/
theorem train_port_default_one (cfg : Config) (mode : String)
    (hm : init_test_flag mode ≠ none) (hE : cfg.hasENV = true) :
    init_env_default_port = 1 ∧
    Event.envBound 1 ∈ (train cfg mode).1 ∧
    (∀ p, Event.envBound p ∈ (train cfg mode).1 → p = 1) ∧
    (∀ (base policy : String) (agents : List String), agents ≠ [] →
      ((evaluate_tasks base agents policy).head?).map (fun t => t.port) = some 0) := by
  cases hflag : init_test_flag mode with
  | none => exact absurd hflag hm
  | some fp =>
    obtain ⟨it, pt⟩ := fp
    refine ⟨rfl, ?_, ?_, ?_⟩
    · cases hT : cfg.hasTRAIN <;> cases hM : cfg.hasMODEL <;>
        simp [train, hflag, hE, hT, hM, init_env, init_env_default_port]
    · intro p hp
      cases hT : cfg.hasTRAIN <;> cases hM : cfg.hasMODEL <;>
          simp [train, hflag, hE, hT, hM, init_env, init_env_default_port] at hp <;>
          try exact hp
      rcases hp with hp | hp
      · exact hp
      · obtain ⟨s, hs⟩ := trainerRun_events_shape (trainCounter cfg) it _ hp
        exact absurd hs (by simp)
    · intro base policy agents hne
      cases agents with
      | nil => exact absurd rfl hne
      | cons a rest => simp [evaluate_tasks, List.enum]

theorem train_port_default_one_witness :
    init_env_default_port = 1 ∧
    Event.envBound 1 ∈ (train ⟨true, true, true, 100, 20, 10⟩ "no_test").1 ∧
    (∀ p, Event.envBound p ∈ (train ⟨true, true, true, 100, 20, 10⟩ "no_test").1 → p = 1) ∧
    (∀ (base policy : String) (agents : List String), agents ≠ [] →
      ((evaluate_tasks base agents policy).head?).map (fun t => t.port) = some 0) :=
  train_port_default_one ⟨true, true, true, 100, 20, 10⟩ "no_test" (by decide) rfl

/-- C10: the schedule parameters are read with `config.getfloat` and passed
through `int()`, i.e. truncated toward zero: the counter built by `train`
holds `pyInt` of each configured value, `pyInt` is truncation toward zero
(below the value and within 1 of it for nonnegative inputs, and odd under
negation), and the fractional value `100.9` yields `100`. -/
theorem schedule_params_truncation (cfg : Config) (q : Rat) (hq : 0 ≤ q) :
    (trainCounter cfg).total_step = pyInt cfg.total_step ∧
    (trainCounter cfg).test_interval = pyInt cfg.test_interval ∧
    (trainCounter cfg).log_interval = pyInt cfg.log_interval ∧
    ((pyInt q : Rat) ≤ q ∧ q < pyInt q + 1) ∧
    (∀ r : Rat, pyInt (-r) = -pyInt r) ∧
    pyInt (1009 / 10 : Rat) = 100 := by
  refine ⟨rfl, rfl, rfl, ⟨?_, ?_⟩, ?_, ?_⟩
  · rw [pyInt, if_pos hq]
    exact_mod_cast Int.floor_le q
  · rw [pyInt, if_pos hq]
    exact_mod_cast Int.lt_floor_add_one q
  · intro r
    simp only [pyInt, neg_neg]
    split_ifs with h1 h2 h3
    · have hr : r = 0 := le_antisymm (by linarith) h2
      subst hr
      simp
    · simp
    · omega
    · exfalso
      have hr1 := not_le.mp h1
      have hr3 := not_le.mp h3
      linarith
  · rw [pyInt, if_pos (by norm_num)]
    rw [Int.floor_eq_iff]
    constructor <;> norm_num

theorem schedule_params_truncation_witness :
    ((pyInt (1009 / 10 : Rat) : Rat) ≤ (1009 / 10 : Rat) ∧
      (1009 / 10 : Rat) < pyInt (1009 / 10 : Rat) + 1) :=
  (schedule_params_truncation ⟨true, true, true, 1009 / 10, 20, 10⟩ (1009 / 10)
    (by norm_num)).2.2.2.1

end SignalControl
